import Mathlib

/-!
# Verification of `google_API_scraper.py`

A shallow embedding of the core pipeline of `src/google_API_scraper.py`:
strategy selection by population, the three fetch strategies (direct,
paginated, grid), cross-place deduplication, detail enrichment, the global
result cap, and the per-place skip logic.

Modelling conventions:
* JSON dictionaries consumed with `.get(key)` / `.get(key, default)` become
  structures with `Option` fields and `Option.getD`.
* The external HTTP world is an oracle: for the fetch layer,
  `api : Nat → SearchResponse` gives the JSON body the n-th `search_places`
  call of the current place would receive (the script issues the calls
  sequentially), and `details_api : Option String → DetailsResponse` gives
  the body a detail lookup for a given identifier receives.  Where a claim
  is about transport failures (`requests.get` raising), the oracle returns
  `Except TransportFailure _` instead, mirroring that the script has no
  `try`/`except` anywhere: a raised exception propagates.
* Python truthiness of `str`/`None` values (`if not token`, `if error`) is
  modelled by `truthy` on `Option String`.
* Floats (`lat`, `lng`, `rating`, the 0.045° grid step) are modelled as `ℚ`;
  Python float formatting inside f-strings is abstracted by `pyStr`.
* The mutable globals `seen_place_ids` / `results` are threaded as a
  `RunState`; the observable actions of the loop body (adding to the seen
  set, issuing a detail lookup, appending an output row, writing a skip-log
  line) are recorded as a trace of `Event`s, in program order.
-/

/-- A transient transport failure of `requests.get` (timeout / connection
error).  The script never catches these. -/
inductive TransportFailure where
  | timeout
  | connectionError
deriving DecidableEq, Repr

/-- One element of the `results` array of a text-search response.  The main
loop reads only `result.get("place_id")`; the rest of the payload is opaque
to the pipeline. -/
structure Candidate where
  place_id : Option String
deriving DecidableEq, Repr

/-- The JSON body of one text-search response, as consumed by the script:
`response.get("results", [])`, `response.get("next_page_token")`,
`response.get("error_message")`. -/
structure SearchResponse where
  results : List Candidate
  next_page_token : Option String
  error_message : Option String
deriving DecidableEq, Repr

/-- `geometry.location` of a detail payload (`.get("lat")`, `.get("lng")`). -/
structure LocationJ where
  lat : Option ℚ
  lng : Option ℚ
deriving DecidableEq, Repr

/-- `geometry` of a detail payload (`.get("location", {})`). -/
structure GeometryJ where
  location : Option LocationJ
deriving DecidableEq, Repr

/-- The `result` object of a place-details response; every field is read
with `.get`, hence optional. -/
structure Detail where
  name : Option String
  formatted_address : Option String
  formatted_phone_number : Option String
  rating : Option ℚ
  geometry : Option GeometryJ
  website : Option String
deriving DecidableEq, Repr

/-- The empty dict `{}` used as the fallback in
`get_place_details(...).get("result", {})`: every subsequent `.get` yields
`None`. -/
def emptyDetail : Detail :=
  { name := none, formatted_address := none, formatted_phone_number := none,
    rating := none, geometry := none, website := none }

/-- The JSON body of a place-details response; the script reads
`.get("result", {})`. -/
structure DetailsResponse where
  result : Option Detail
deriving DecidableEq, Repr

/-- One row of the `us_places` records: `place['city']`, `place['state']`,
`place['lat']`, `place['lng']` are required lookups; `place.get("population", 0)`
and `place.get("zipcode", "")` are optional. -/
structure Place where
  city : String
  state : String
  zipcode : Option String
  lat : ℚ
  lng : ℚ
  population : Option Nat
deriving DecidableEq, Repr

/-- One element of the global `results` list (lines 168-181). -/
structure OutputRow where
  City : String
  State : String
  Zip : String
  Name : Option String
  Address : Option String
  Phone : Option String
  Rating : Option ℚ
  Latitude : Option ℚ
  Longitude : Option ℚ
  Website : Option String
  MapsURL : String
  StreetViewURL : String
deriving DecidableEq, Repr

-- -------------------------
-- CONFIGURATION CONSTANTS
-- -------------------------

def POPULATION_MIN_THRESHOLD : Nat := 100000
def POPULATION_PAGINATION_MIN : Nat := 1000000
def POPULATION_PAGINATION_MAX : Nat := 5000000
def POPULATION_GRID_SEARCH_MIN : Nat := 5000001

def SEARCH_RADIUS_METERS : Nat := 5000

/-- `GRID_STEP_DEGREES = 0.045` (approx. 5 km). -/
def GRID_STEP_DEGREES : ℚ := 45 / 1000

def MAX_RESULTS_PER_CITY : Nat := 60
def ENABLE_DEDUPLICATION : Bool := true

/-- The credential loaded from the environment at startup; its concrete
value is irrelevant to every claim, only its presence in URLs matters. -/
def API_KEY : String := "GOOGLE_API_KEY"

-- -------------------------
-- PURE HELPERS
-- -------------------------

/-- Python truthiness of an optional string: `None` and `""` are falsy.
Used for `if not token` (line 104) and `if error` (line 148). -/
def truthy : Option String → Bool
  | none => false
  | some s => !s.isEmpty

/-- Python `str(...)` of an optional float, as interpolated by the
f-strings of lines 179-180 (`str(None) = "None"`; exact float formatting
abstracted). -/
def pyStr : Option ℚ → String
  | none => "None"
  | some q => toString q

/-- `get_street_view_url` (lines 94-95). -/
def get_street_view_url (lat lng : Option ℚ) (api_key : String)
    (size : String := "600x300") : String :=
  "https://maps.googleapis.com/maps/api/streetview?size=" ++ size ++
    "&location=" ++ pyStr lat ++ "," ++ pyStr lng ++ "&key=" ++ api_key

/-- The output-row construction of lines 164-181: the detail payload's
`geometry.location.lat` / `.lng` chain with `{}` fallbacks, the flat
projection of the detail fields, and the two derived URLs. -/
def mkRow (place : Place) (details : Detail) : OutputRow :=
  let lat := ((details.geometry.getD { location := none }).location.getD
    { lat := none, lng := none }).lat
  let lng := ((details.geometry.getD { location := none }).location.getD
    { lat := none, lng := none }).lng
  { City := place.city
    State := place.state
    Zip := place.zipcode.getD ""
    Name := details.name
    Address := details.formatted_address
    Phone := details.formatted_phone_number
    Rating := details.rating
    Latitude := lat
    Longitude := lng
    Website := details.website
    MapsURL := "https://www.google.com/maps/search/?api=1&query=" ++
      pyStr lat ++ "," ++ pyStr lng
    StreetViewURL := get_street_view_url lat lng API_KEY }

-- -------------------------
-- SEARCH CLIENT (lines 73-92)
-- -------------------------

/-- `search_places` (lines 73-83): builds the request parameters and issues
exactly ONE `requests.get` — there is no retry loop, no `try`/`except` and
no `time.sleep` in its body.  `http n` is the outcome the (n+1)-th HTTP
attempt of this call would produce; the function consumes attempt 0 only.
Returns (outcome of the single attempt, number of attempts issued, the
list of sleep durations performed). -/
def search_places (http : Nat → Except TransportFailure SearchResponse) :
    Except TransportFailure SearchResponse × Nat × List Nat :=
  (http 0, 1, [])

/-- `get_place_details` (lines 85-92): likewise a single `requests.get`
with no retry and no exception handling; the outcome of the one attempt is
returned (or the exception propagates). -/
def get_place_details (http : Nat → Except TransportFailure DetailsResponse) :
    Except TransportFailure DetailsResponse × Nat × List Nat :=
  (http 0, 1, [])

-- -------------------------
-- FETCH STRATEGIES (lines 97-124)
-- -------------------------

/-- `fetch_with_pagination` (lines 97-111).  The `for _ in range(2)` loop
is unrolled into its two iterations; `api n` is the JSON body of the
(n+1)-th `search_places` call of this place.  Returns
((accumulated results, first page's `error_message`), number of search
calls issued). -/
def fetch_with_pagination (api : Nat → SearchResponse) :
    (List Candidate × Option String) × Nat :=
  let response := api 0
  if truthy response.next_page_token then
    let paged1 := api 1
    if truthy paged1.next_page_token then
      let paged2 := api 2
      ((response.results ++ paged1.results ++ paged2.results,
        response.error_message), 3)
    else
      ((response.results ++ paged1.results, response.error_message), 2)
  else
    ((response.results, response.error_message), 1)

/-- `generate_grid` (lines 113-115): the 3×3 cross product of the offsets
`[-GRID_STEP_DEGREES, 0, GRID_STEP_DEGREES]` applied to the center, outer
loop over the latitude offset. -/
def generate_grid (center_lat center_lng : ℚ) : List (ℚ × ℚ) :=
  [-GRID_STEP_DEGREES, 0, GRID_STEP_DEGREES].flatMap fun dx =>
    [-GRID_STEP_DEGREES, 0, GRID_STEP_DEGREES].map fun dy =>
      (center_lat + dx, center_lng + dy)

/-- The loop of `fetch_grid` over the grid points, carrying the index of
the next search call; returns (accumulated results, the list of locations
queried, in order). -/
def fetchGridLoop (api : Nat → SearchResponse) :
    List (ℚ × ℚ) → Nat → List Candidate × List (ℚ × ℚ)
  | [], _ => ([], [])
  | point :: rest, n =>
      ((api n).results ++ (fetchGridLoop api rest (n + 1)).1,
       point :: (fetchGridLoop api rest (n + 1)).2)

/-- `fetch_grid` (lines 117-124): one search call per grid point,
accumulating all results; no error is collected from any point. -/
def fetch_grid (api : Nat → SearchResponse) (place : Place) :
    List Candidate × List (ℚ × ℚ) :=
  fetchGridLoop api (generate_grid place.lat place.lng) 0

-- -------------------------
-- STRATEGY SELECTION (lines 130-146)
-- -------------------------

/-- The four outcomes of the population dispatch of the main loop. -/
inductive Strategy where
  | skip
  | direct
  | paginated
  | grid
deriving DecidableEq, Repr

/-- The population dispatch of the main loop (lines 131-146): the
`pop < POPULATION_MIN_THRESHOLD` skip guard followed by the
pagination / grid / direct `elif` chain, in source order. -/
def selectStrategy (pop : Nat) : Strategy :=
  if pop < POPULATION_MIN_THRESHOLD then Strategy.skip
  else if POPULATION_PAGINATION_MIN ≤ pop ∧ pop ≤ POPULATION_PAGINATION_MAX then
    Strategy.paginated
  else if POPULATION_GRID_SEARCH_MIN ≤ pop then Strategy.grid
  else Strategy.direct

/-- Lines 138-146: produce `(raw_results, error)` for a place whose
population passed the skip guard.  The branch conditions are the literal
conditions of the source. -/
def fetchStage (api : Nat → SearchResponse) (place : Place) :
    List Candidate × Option String :=
  let pop := place.population.getD 0
  if POPULATION_PAGINATION_MIN ≤ pop ∧ pop ≤ POPULATION_PAGINATION_MAX then
    ((fetch_with_pagination api).1.1, (fetch_with_pagination api).1.2)
  else if POPULATION_GRID_SEARCH_MIN ≤ pop then
    ((fetch_grid api place).1, none)
  else
    ((api 0).results, (api 0).error_message)

-- -------------------------
-- MAIN EXECUTION LOOP (lines 130-184)
-- -------------------------

/-- The mutable globals of the script: `seen_place_ids` (line 49) and
`results` (line 50), threaded explicitly. -/
structure RunState where
  seen : Finset (Option String)
  results : List OutputRow
deriving DecidableEq

/-- The initial state of a run: empty seen set, empty output list. -/
def initState : RunState := { seen := ∅, results := [] }

/-- Observable actions of the main loop, in program order:
`seen_place_ids.add` (line 162), the `get_place_details` call (line 164),
`results.append` (line 168), and a `log_skip` line (lines 133/149/153). -/
inductive Event where
  | insertSeen : Option String → Event
  | detailLookup : Option String → Event
  | appendRow : OutputRow → Event
  | logSkip : String → String → Event
deriving DecidableEq, Repr

/-- Lines 162-181 for one FRESH candidate (`result.get("place_id")` not
filtered out): add the id to `seen_place_ids`, issue the detail lookup
(`details_api pid` is the JSON body the detail request for identifier
`pid` receives), and append the flattened row; the three events in
program order. -/
def freshStep (details_api : Option String → DetailsResponse) (place : Place)
    (st : RunState) (result : Candidate) : RunState × List Event :=
  let row := mkRow place ((details_api result.place_id).result.getD emptyDetail)
  ({ seen := insert result.place_id st.seen, results := st.results ++ [row] },
   [Event.insertSeen result.place_id, Event.detailLookup result.place_id,
    Event.appendRow row])

/-- The per-place candidate loop proper (lines 158-184): on a duplicate
(with deduplication on), `continue`; on a fresh candidate, perform
`freshStep` and `break` when the global row count has reached
`MAX_RESULTS_PER_CITY`, else keep looping over the remaining candidates. -/
def processCandidates (dedup : Bool) (details_api : Option String → DetailsResponse)
    (place : Place) : RunState → List Candidate → RunState × List Event
  | st, [] => (st, [])
  | st, result :: rest =>
    if dedup = true ∧ result.place_id ∈ st.seen then
      processCandidates dedup details_api place st rest
    else if MAX_RESULTS_PER_CITY ≤ (freshStep details_api place st result).1.results.length then
      freshStep details_api place st result
    else
      ((processCandidates dedup details_api place
          (freshStep details_api place st result).1 rest).1,
       (freshStep details_api place st result).2 ++
         (processCandidates dedup details_api place
           (freshStep details_api place st result).1 rest).2)

/-- The body of the per-place loop (lines 130-184): the population skip
guard, the strategy dispatch producing `(raw_results, error)`, the
`if error` and `if not raw_results` skips, then the candidate loop.
(The raw-JSON snapshot write of line 156 is I/O glue, not modelled.) -/
def processPlace (api : Nat → SearchResponse)
    (details_api : Option String → DetailsResponse) (dedup : Bool)
    (st : RunState) (place : Place) : RunState × List Event :=
  if place.population.getD 0 < POPULATION_MIN_THRESHOLD then
    (st, [Event.logSkip place.city "Population below threshold"])
  else if truthy (fetchStage api place).2 then
    (st, [Event.logSkip place.city
      ("API error: " ++ ((fetchStage api place).2).getD "")])
  else if (fetchStage api place).1.isEmpty then
    (st, [Event.logSkip place.city "No results returned"])
  else
    processCandidates dedup details_api place st (fetchStage api place).1

/-- The whole run (the `for place in us_places` loop): fold `processPlace`
over the place sequence, starting from the given state, concatenating the
event traces in order.  `api place n` is the body of the (n+1)-th search
call issued while processing `place`. -/
def processPlaces (api : Place → Nat → SearchResponse)
    (details_api : Option String → DetailsResponse) (dedup : Bool) :
    RunState → List Place → RunState × List Event
  | st, [] => (st, [])
  | st, place :: rest =>
    ((processPlaces api details_api dedup
        (processPlace (api place) details_api dedup st place).1 rest).1,
     (processPlace (api place) details_api dedup st place).2 ++
       (processPlaces api details_api dedup
         (processPlace (api place) details_api dedup st place).1 rest).2)

/-- One iteration of the candidate loop when the detail request may raise
(lines 158-181 with the transport effect of `get_place_details` made
explicit).  The script has no `try`/`except`: when the single HTTP attempt
of the detail lookup fails, the exception propagates — no row is appended
and the run aborts.  `details_http pid` is the outcome of the detail
request for identifier `pid`. -/
def processCandidateE (dedup : Bool)
    (details_http : Option String → Except TransportFailure DetailsResponse)
    (place : Place) (st : RunState) (result : Candidate) :
    Except TransportFailure (RunState × List Event) :=
  if dedup = true ∧ result.place_id ∈ st.seen then Except.ok (st, [])
  else
    match details_http result.place_id with
    | Except.error e => Except.error e
    | Except.ok resp =>
      let row := mkRow place (resp.result.getD emptyDetail)
      Except.ok
        ({ seen := insert result.place_id st.seen,
           results := st.results ++ [row] },
         [Event.insertSeen result.place_id,
          Event.detailLookup result.place_id, Event.appendRow row])

-- -------------------------
-- TRACE OBSERVATIONS
-- -------------------------

/-- Is an event a detail lookup? -/
def isLookup : Event → Bool
  | Event.detailLookup _ => true
  | _ => false

/-- Is an event a skip-log line? -/
def isSkip : Event → Bool
  | Event.logSkip _ _ => true
  | _ => false

/-- The identifiers forwarded to enrichment (detail lookups issued), in
order. -/
def lookupIds (evs : List Event) : List (Option String) :=
  evs.filterMap fun e =>
    match e with
    | Event.detailLookup pid => some pid
    | _ => none

/-- Well-formed traces of the main loop: a concatenation of skip-log lines
and candidate blocks, where a candidate block inserts an identifier into
the seen set, then issues the detail lookup for THAT identifier, then
appends a row.  In particular every detail lookup is immediately preceded
by the insertion of its identifier and immediately followed by the append
of its row. -/
inductive GoodTrace : List Event → Prop
  | nil : GoodTrace []
  | skip (c r : String) (t : List Event) : GoodTrace t →
      GoodTrace (Event.logSkip c r :: t)
  | blk (pid : Option String) (row : OutputRow) (t : List Event) :
      GoodTrace t →
      GoodTrace (Event.insertSeen pid :: Event.detailLookup pid ::
        Event.appendRow row :: t)

-- -------------------------
-- HELPER LEMMAS
-- -------------------------

@[simp]
theorem freshStep_seen (details_api : Option String → DetailsResponse)
    (place : Place) (st : RunState) (result : Candidate) :
    (freshStep details_api place st result).1.seen = insert result.place_id st.seen :=
  rfl

@[simp]
theorem freshStep_results (details_api : Option String → DetailsResponse)
    (place : Place) (st : RunState) (result : Candidate) :
    (freshStep details_api place st result).1.results =
      st.results ++ [mkRow place ((details_api result.place_id).result.getD emptyDetail)] :=
  rfl

@[simp]
theorem freshStep_events (details_api : Option String → DetailsResponse)
    (place : Place) (st : RunState) (result : Candidate) :
    (freshStep details_api place st result).2 =
      [Event.insertSeen result.place_id, Event.detailLookup result.place_id,
       Event.appendRow (mkRow place ((details_api result.place_id).result.getD emptyDetail))] :=
  rfl

theorem GoodTrace.append {t1 t2 : List Event} (h1 : GoodTrace t1)
    (h2 : GoodTrace t2) : GoodTrace (t1 ++ t2) := by
  induction h1 with
  | nil => simpa using h2
  | skip c r t _ ih => exact GoodTrace.skip c r _ ih
  | blk pid row t _ ih => exact GoodTrace.blk pid row _ ih

theorem processCandidates_seen_mono (dedup : Bool)
    (details_api : Option String → DetailsResponse) (place : Place) :
    ∀ (cs : List Candidate) (st : RunState),
      st.seen ⊆ (processCandidates dedup details_api place st cs).1.seen := by
  intro cs
  induction cs with
  | nil => intro st; rw [processCandidates]
  | cons c rest ih =>
    intro st
    rw [processCandidates]
    split_ifs with h1 h2
    · exact ih st
    · intro x hx
      exact Finset.mem_insert_of_mem hx
    · intro x hx
      exact ih _ (Finset.mem_insert_of_mem hx)

theorem processCandidates_results_mono (dedup : Bool)
    (details_api : Option String → DetailsResponse) (place : Place) :
    ∀ (cs : List Candidate) (st : RunState),
      ∃ t, (processCandidates dedup details_api place st cs).1.results =
        st.results ++ t := by
  intro cs
  induction cs with
  | nil => intro st; exact ⟨[], by rw [processCandidates]; simp⟩
  | cons c rest ih =>
    intro st
    rw [processCandidates]
    split_ifs with h1 h2
    · exact ih st
    · exact ⟨_, rfl⟩
    · obtain ⟨t, ht⟩ := ih (freshStep details_api place st c).1
      exact ⟨mkRow place ((details_api c.place_id).result.getD emptyDetail) :: t,
        by simp [ht]⟩

theorem processCandidates_len (dedup : Bool)
    (details_api : Option String → DetailsResponse) (place : Place) :
    ∀ (cs : List Candidate) (st : RunState),
      (processCandidates dedup details_api place st cs).1.results.length =
        st.results.length +
          ((processCandidates dedup details_api place st cs).2.countP isLookup) := by
  intro cs
  induction cs with
  | nil => intro st; rw [processCandidates]; simp
  | cons c rest ih =>
    intro st
    rw [processCandidates]
    split_ifs with h1 h2
    · exact ih st
    · simp [List.countP_cons, isLookup]
    · have := ih (freshStep details_api place st c).1
      simp only [freshStep_results, freshStep_events, List.length_append] at this
      simp [List.countP_append, List.countP_cons, isLookup, this]
      omega

theorem processCandidates_cap (dedup : Bool)
    (details_api : Option String → DetailsResponse) (place : Place) :
    ∀ (cs : List Candidate) (st : RunState),
      (processCandidates dedup details_api place st cs).1.results.length ≤
        max (st.results.length + 1) MAX_RESULTS_PER_CITY := by
  intro cs
  induction cs with
  | nil => intro st; rw [processCandidates]; exact le_max_of_le_left (Nat.le_succ _)
  | cons c rest ih =>
    intro st
    rw [processCandidates]
    split_ifs with h1 h2
    · exact (ih st).trans (le_refl _)
    · simp only [freshStep_results, List.length_append, List.length_cons,
        List.length_nil]
      exact le_max_left _ _
    · have hrec := ih (freshStep details_api place st c).1
      simp only [freshStep_results, List.length_append, List.length_cons,
        List.length_nil] at hrec h2
      dsimp only
      omega

theorem processCandidates_good (dedup : Bool)
    (details_api : Option String → DetailsResponse) (place : Place) :
    ∀ (cs : List Candidate) (st : RunState),
      GoodTrace (processCandidates dedup details_api place st cs).2 := by
  intro cs
  induction cs with
  | nil => intro st; rw [processCandidates]; exact GoodTrace.nil
  | cons c rest ih =>
    intro st
    rw [processCandidates]
    split_ifs with h1 h2
    · exact ih st
    · exact GoodTrace.blk _ _ _ GoodTrace.nil
    · simp only [freshStep_events, List.cons_append, List.nil_append]
      exact GoodTrace.blk _ _ _ (ih _)

theorem count_lookup_in_block (q pid : Option String) (row : OutputRow) :
    List.count (Event.detailLookup pid)
      [Event.insertSeen q, Event.detailLookup q, Event.appendRow row] =
      if q = pid then 1 else 0 := by
  by_cases h : q = pid
  · subst h; simp [List.count_cons]
  · simp [List.count_cons, h]

theorem count_insert_in_block (q pid : Option String) (row : OutputRow) :
    List.count (Event.insertSeen pid)
      [Event.insertSeen q, Event.detailLookup q, Event.appendRow row] =
      if q = pid then 1 else 0 := by
  by_cases h : q = pid
  · subst h; simp [List.count_cons]
  · simp [List.count_cons, h]

/-- Budget form of the deduplication invariant for the candidate loop
(deduplication on): the number of detail lookups (and seen-set insertions)
for a given identifier in the trace, plus the remaining budget of the final
state, is bounded by the budget of the initial state, where the budget of a
state is 1 when the identifier is unseen and 0 once it is in the seen set. -/
theorem processCandidates_count_le
    (details_api : Option String → DetailsResponse) (place : Place)
    (pid : Option String) :
    ∀ (cs : List Candidate) (st : RunState),
      ((processCandidates true details_api place st cs).2.count
          (Event.detailLookup pid) +
        (if pid ∈ (processCandidates true details_api place st cs).1.seen
          then 0 else 1) ≤ (if pid ∈ st.seen then 0 else 1)) ∧
      ((processCandidates true details_api place st cs).2.count
          (Event.insertSeen pid) +
        (if pid ∈ (processCandidates true details_api place st cs).1.seen
          then 0 else 1) ≤ (if pid ∈ st.seen then 0 else 1)) := by
  intro cs
  induction cs with
  | nil =>
    intro st
    rw [processCandidates]
    constructor <;> simp
  | cons c rest ih =>
    intro st
    rw [processCandidates]
    by_cases h1 : (true = true ∧ c.place_id ∈ st.seen)
    · rw [if_pos h1]
      exact ih st
    · rw [if_neg h1]
      have hni : c.place_id ∉ st.seen := fun hmem => h1 ⟨rfl, hmem⟩
      have hb : (if pid ∈ st.seen then 0 else 1) =
          if c.place_id = pid then 1 else (if pid ∈ st.seen then 0 else 1) := by
        by_cases hp : c.place_id = pid
        · rw [if_pos hp, if_neg (hp ▸ hni)]
        · rw [if_neg hp]
      have hins : ∀ s : Finset (Option String),
          (pid ∈ insert c.place_id s) ↔ (c.place_id = pid ∨ pid ∈ s) := by
        intro s
        rw [Finset.mem_insert]
        constructor
        · rintro (he | hm)
          · exact Or.inl he.symm
          · exact Or.inr hm
        · rintro (he | hm)
          · exact Or.inl he.symm
          · exact Or.inr hm
      by_cases h2 : MAX_RESULTS_PER_CITY ≤
          (freshStep details_api place st c).1.results.length
      · rw [if_pos h2]
        constructor
        · rw [freshStep_events, count_lookup_in_block, freshStep_seen, hb]
          by_cases hp : c.place_id = pid
          · rw [if_pos hp, if_pos hp,
              if_pos ((hins st.seen).mpr (Or.inl hp))]
          · rw [if_neg hp, if_neg hp]
            have : (pid ∈ insert c.place_id st.seen) ↔ pid ∈ st.seen := by
              rw [hins st.seen]
              simp [hp]
            simp only [this]
            omega
        · rw [freshStep_events, count_insert_in_block, freshStep_seen, hb]
          by_cases hp : c.place_id = pid
          · rw [if_pos hp, if_pos hp,
              if_pos ((hins st.seen).mpr (Or.inl hp))]
          · rw [if_neg hp, if_neg hp]
            have : (pid ∈ insert c.place_id st.seen) ↔ pid ∈ st.seen := by
              rw [hins st.seen]
              simp [hp]
            simp only [this]
            omega
      · rw [if_neg h2]
        have hrecL := (ih (freshStep details_api place st c).1).1
        have hrecI := (ih (freshStep details_api place st c).1).2
        simp only [freshStep_seen] at hrecL hrecI
        dsimp only
        rw [freshStep_events]
        constructor
        · rw [List.count_append, count_lookup_in_block, hb]
          by_cases hp : c.place_id = pid
          · rw [if_pos hp, if_pos hp]
            rw [if_pos ((hins st.seen).mpr (Or.inl hp))] at hrecL
            omega
          · rw [if_neg hp, if_neg hp]
            have heq : (pid ∈ insert c.place_id st.seen) ↔ pid ∈ st.seen := by
              rw [hins st.seen]
              simp [hp]
            simp only [heq] at hrecL
            omega
        · rw [List.count_append, count_insert_in_block, hb]
          by_cases hp : c.place_id = pid
          · rw [if_pos hp, if_pos hp]
            rw [if_pos ((hins st.seen).mpr (Or.inl hp))] at hrecI
            omega
          · rw [if_neg hp, if_neg hp]
            have heq : (pid ∈ insert c.place_id st.seen) ↔ pid ∈ st.seen := by
              rw [hins st.seen]
              simp [hp]
            simp only [heq] at hrecI
            omega

theorem processPlace_seen_mono (api : Nat → SearchResponse)
    (details_api : Option String → DetailsResponse) (dedup : Bool)
    (st : RunState) (place : Place) :
    st.seen ⊆ (processPlace api details_api dedup st place).1.seen := by
  unfold processPlace
  split_ifs
  · exact Finset.Subset.refl _
  · exact Finset.Subset.refl _
  · exact Finset.Subset.refl _
  · exact processCandidates_seen_mono dedup details_api place _ st

theorem processPlace_good (api : Nat → SearchResponse)
    (details_api : Option String → DetailsResponse) (dedup : Bool)
    (st : RunState) (place : Place) :
    GoodTrace (processPlace api details_api dedup st place).2 := by
  unfold processPlace
  split_ifs
  · exact GoodTrace.skip _ _ _ GoodTrace.nil
  · exact GoodTrace.skip _ _ _ GoodTrace.nil
  · exact GoodTrace.skip _ _ _ GoodTrace.nil
  · exact processCandidates_good dedup details_api place _ st

theorem processPlace_count_le (api : Nat → SearchResponse)
    (details_api : Option String → DetailsResponse) (pid : Option String)
    (st : RunState) (place : Place) :
    ((processPlace api details_api true st place).2.count
        (Event.detailLookup pid) +
      (if pid ∈ (processPlace api details_api true st place).1.seen
        then 0 else 1) ≤ (if pid ∈ st.seen then 0 else 1)) ∧
    ((processPlace api details_api true st place).2.count
        (Event.insertSeen pid) +
      (if pid ∈ (processPlace api details_api true st place).1.seen
        then 0 else 1) ≤ (if pid ∈ st.seen then 0 else 1)) := by
  unfold processPlace
  by_cases hp1 : place.population.getD 0 < POPULATION_MIN_THRESHOLD
  · rw [if_pos hp1]
    constructor <;> simp [List.count_cons]
  · rw [if_neg hp1]
    by_cases hp2 : truthy (fetchStage api place).2 = true
    · rw [if_pos hp2]
      constructor <;> simp [List.count_cons]
    · rw [if_neg hp2]
      by_cases hp3 : (fetchStage api place).1.isEmpty = true
      · rw [if_pos hp3]
        constructor <;> simp [List.count_cons]
      · rw [if_neg hp3]
        exact processCandidates_count_le details_api place pid _ st

theorem processPlaces_seen_mono (api : Place → Nat → SearchResponse)
    (details_api : Option String → DetailsResponse) (dedup : Bool) :
    ∀ (ps : List Place) (st : RunState),
      st.seen ⊆ (processPlaces api details_api dedup st ps).1.seen := by
  intro ps
  induction ps with
  | nil => intro st; rw [processPlaces]
  | cons place rest ih =>
    intro st
    rw [processPlaces]
    exact (processPlace_seen_mono (api place) details_api dedup st place).trans
      (ih _)

theorem processPlaces_good (api : Place → Nat → SearchResponse)
    (details_api : Option String → DetailsResponse) (dedup : Bool) :
    ∀ (ps : List Place) (st : RunState),
      GoodTrace (processPlaces api details_api dedup st ps).2 := by
  intro ps
  induction ps with
  | nil => intro st; rw [processPlaces]; exact GoodTrace.nil
  | cons place rest ih =>
    intro st
    rw [processPlaces]
    exact GoodTrace.append
      (processPlace_good (api place) details_api dedup st place) (ih _)

theorem processPlaces_count_le (api : Place → Nat → SearchResponse)
    (details_api : Option String → DetailsResponse) (pid : Option String) :
    ∀ (ps : List Place) (st : RunState),
      ((processPlaces api details_api true st ps).2.count
          (Event.detailLookup pid) +
        (if pid ∈ (processPlaces api details_api true st ps).1.seen
          then 0 else 1) ≤ (if pid ∈ st.seen then 0 else 1)) ∧
      ((processPlaces api details_api true st ps).2.count
          (Event.insertSeen pid) +
        (if pid ∈ (processPlaces api details_api true st ps).1.seen
          then 0 else 1) ≤ (if pid ∈ st.seen then 0 else 1)) := by
  intro ps
  induction ps with
  | nil =>
    intro st
    rw [processPlaces]
    constructor <;> simp
  | cons place rest ih =>
    intro st
    rw [processPlaces]
    have h1 := processPlace_count_le (api place) details_api pid st place
    have h2 := ih (processPlace (api place) details_api true st place).1
    dsimp only
    constructor
    · rw [List.count_append]
      omega
    · rw [List.count_append]
      omega

-- -------------------------
-- CONCRETE FIXTURES FOR WITNESSES AND COUNTEREXAMPLES
-- -------------------------

/-- A details oracle whose responses carry no `result` object. -/
def det0 : Option String → DetailsResponse := fun _ => { result := none }

/-- 61 candidates with pairwise-distinct identifiers. -/
def cands61 : List Candidate :=
  (List.range 61).map fun i => { place_id := some (toString i) }

/-- A direct-strategy place (population 200000). -/
def capPlaceA : Place :=
  { city := "A", state := "S", zipcode := none, lat := 1, lng := 2,
    population := some 200000 }

/-- A second direct-strategy place. -/
def capPlaceB : Place :=
  { city := "B", state := "S", zipcode := none, lat := 3, lng := 4,
    population := some 200000 }

/-- A search oracle: place "A" yields the 61 distinct candidates, any other
place yields one fresh candidate "x". -/
def capApi : Place → Nat → SearchResponse := fun p _ =>
  if p.city = "A" then
    { results := cands61, next_page_token := none, error_message := none }
  else
    { results := [{ place_id := some "x" }], next_page_token := none,
      error_message := none }

/-- The run state after processing place "A" alone: 60 rows (the cap). -/
def stCap : RunState :=
  (processPlaces capApi det0 true initState [capPlaceA]).1

/-- A pagination oracle: pages 0 and 1 carry next-page tokens (page 2 does
too), page 0 carries an error message, later pages carry none. -/
def c6Api : Nat → SearchResponse := fun n =>
  if n = 0 then
    { results := [{ place_id := some "r0" }], next_page_token := some "tok1",
      error_message := some "ERR" }
  else if n = 1 then
    { results := [{ place_id := some "r1" }], next_page_token := some "tok2",
      error_message := some "LATER1" }
  else
    { results := [{ place_id := some "r2" }], next_page_token := some "tok3",
      error_message := some "LATER2" }

/-- A grid-strategy place (population 6000000). -/
def gridPlace : Place :=
  { city := "G", state := "S", zipcode := none, lat := 39, lng := -89,
    population := some 6000000 }

/-- A search oracle whose n-th response carries one candidate named after n. -/
def gridApi : Nat → SearchResponse := fun n =>
  { results := [{ place_id := some (toString n) }], next_page_token := none,
    error_message := none }

-- -------------------------
-- CLAIM C5: strategy selection
-- -------------------------

/-- C5: for every non-negative integer population `p`, the strategy
selection is total and deterministic and returns exactly one of
{Skip, Direct, Paginated, Grid}: Skip for `p < 100000`; Direct for
`p ∈ [100000, 1000000)`; Paginated for `1000000 ≤ p ≤ 5000000`; Grid for
`p ≥ 5000001`.  (`selectStrategy` is a total Lean function, so totality and
determinism are inherent; the four iff-characterizations pin the exhaustive,
mutually exclusive mapping.) -/
theorem claim_C5_strategy_selection (pop : Nat) :
    (selectStrategy pop = Strategy.skip ↔ pop < 100000) ∧
    (selectStrategy pop = Strategy.direct ↔ 100000 ≤ pop ∧ pop < 1000000) ∧
    (selectStrategy pop = Strategy.paginated ↔ 1000000 ≤ pop ∧ pop ≤ 5000000) ∧
    (selectStrategy pop = Strategy.grid ↔ 5000001 ≤ pop) := by
  simp only [selectStrategy, POPULATION_MIN_THRESHOLD, POPULATION_PAGINATION_MIN,
    POPULATION_PAGINATION_MAX, POPULATION_GRID_SEARCH_MIN]
  split_ifs with h1 h2 h3 <;> simp_all <;> omega

-- -------------------------
-- CLAIM C6: pagination
-- -------------------------

/-- C6: when the first page carries a (truthy) next-page token and the
second page does too, exactly 3 search calls are made (1 initial + 2
continuations) and the results are concatenated in page order; when the
first page carries no token, exactly 1 call is made; when only the first
page carries a token, exactly 2 calls; and in every case the surfaced
error message is the FIRST page's `error_message` (later pages' error
messages are ignored). -/
theorem claim_C6_pagination (api : Nat → SearchResponse) :
    (truthy (api 0).next_page_token = true →
      truthy (api 1).next_page_token = true →
      (fetch_with_pagination api).2 = 3 ∧
      (fetch_with_pagination api).1.1 =
        (api 0).results ++ (api 1).results ++ (api 2).results) ∧
    (truthy (api 0).next_page_token = false →
      (fetch_with_pagination api).2 = 1 ∧
      (fetch_with_pagination api).1.1 = (api 0).results) ∧
    (truthy (api 0).next_page_token = true →
      truthy (api 1).next_page_token = false →
      (fetch_with_pagination api).2 = 2) ∧
    (fetch_with_pagination api).1.2 = (api 0).error_message := by
  refine ⟨fun h0 h1 => ?_, fun h0 => ?_, fun h0 h1 => ?_, ?_⟩
  · rw [fetch_with_pagination, if_pos h0, if_pos h1]
    exact ⟨rfl, rfl⟩
  · rw [fetch_with_pagination, if_neg (by rw [h0]; exact Bool.false_ne_true)]
    exact ⟨rfl, rfl⟩
  · rw [fetch_with_pagination, if_pos h0,
      if_neg (by rw [h1]; exact Bool.false_ne_true)]
  · simp only [fetch_with_pagination]
    split_ifs <;> rfl

/-- Witness for C6 at the concrete oracle `c6Api`. -/
theorem claim_C6_pagination_witness :
    (fetch_with_pagination c6Api).2 = 3 ∧
    (fetch_with_pagination c6Api).1.1 =
      (c6Api 0).results ++ (c6Api 1).results ++ (c6Api 2).results ∧
    (fetch_with_pagination c6Api).1.2 = some "ERR" :=
  ⟨((claim_C6_pagination c6Api).1 (by decide) (by decide)).1,
   ((claim_C6_pagination c6Api).1 (by decide) (by decide)).2,
   ((claim_C6_pagination c6Api).2.2.2).trans (by decide)⟩

-- -------------------------
-- CLAIM C7: grid
-- -------------------------

/-- The locations queried by the grid loop are exactly the supplied grid
points, in order. -/
theorem fetchGridLoop_points (api : Nat → SearchResponse) :
    ∀ (ps : List (ℚ × ℚ)) (n : Nat), (fetchGridLoop api ps n).2 = ps := by
  intro ps
  induction ps with
  | nil => intro n; rfl
  | cons p rest ih =>
    intro n
    rw [fetchGridLoop]
    rw [ih (n + 1)]

/-- C7: for a place dispatched to the grid strategy (population
`≥ POPULATION_GRID_SEARCH_MIN`), exactly 9 search calls are made, one at
each offset combination of {-step, 0, +step} × {-step, 0, +step} applied
to the place's latitude and longitude (the exact center point included),
the results are accumulated in grid-point order, and the error returned by
the dispatch is always `none`, whatever any per-point `error_message`
says. -/
theorem claim_C7_grid (api : Nat → SearchResponse) (place : Place)
    (hpop : POPULATION_GRID_SEARCH_MIN ≤ place.population.getD 0) :
    (fetchStage api place).2 = none ∧
    (fetchStage api place).1 = (fetch_grid api place).1 ∧
    (fetch_grid api place).2 = generate_grid place.lat place.lng ∧
    (generate_grid place.lat place.lng).length = 9 ∧
    generate_grid place.lat place.lng =
      [(place.lat - GRID_STEP_DEGREES, place.lng - GRID_STEP_DEGREES),
       (place.lat - GRID_STEP_DEGREES, place.lng),
       (place.lat - GRID_STEP_DEGREES, place.lng + GRID_STEP_DEGREES),
       (place.lat, place.lng - GRID_STEP_DEGREES),
       (place.lat, place.lng),
       (place.lat, place.lng + GRID_STEP_DEGREES),
       (place.lat + GRID_STEP_DEGREES, place.lng - GRID_STEP_DEGREES),
       (place.lat + GRID_STEP_DEGREES, place.lng),
       (place.lat + GRID_STEP_DEGREES, place.lng + GRID_STEP_DEGREES)] ∧
    (fetch_grid api place).1 =
      (api 0).results ++ (api 1).results ++ (api 2).results ++
      (api 3).results ++ (api 4).results ++ (api 5).results ++
      (api 6).results ++ (api 7).results ++ (api 8).results := by
  have hd : fetchStage api place = ((fetch_grid api place).1, none) := by
    unfold fetchStage
    rw [if_neg, if_pos hpop]
    simp only [POPULATION_PAGINATION_MIN, POPULATION_PAGINATION_MAX,
      POPULATION_GRID_SEARCH_MIN] at hpop ⊢
    omega
  refine ⟨by rw [hd], by rw [hd], fetchGridLoop_points api _ 0, rfl, ?_, ?_⟩
  · simp only [generate_grid, GRID_STEP_DEGREES, List.flatMap_cons,
      List.map_cons, List.map_nil, List.flatMap_nil, List.append_nil,
      List.cons_append, List.nil_append]
    norm_num [sub_eq_add_neg]
  · simp [fetch_grid, generate_grid, fetchGridLoop, List.append_assoc]

/-- Witness for C7 at the concrete oracle `gridApi` and place `gridPlace`
(population 6000000, center (39, -89)). -/
theorem claim_C7_grid_witness :
    (fetchStage gridApi gridPlace).2 = none ∧
    (fetch_grid gridApi gridPlace).2 = generate_grid 39 (-89) ∧
    (generate_grid (39 : ℚ) (-89 : ℚ)).length = 9 :=
  ⟨(claim_C7_grid gridApi gridPlace (by decide)).1,
   (claim_C7_grid gridApi gridPlace (by decide)).2.2.1,
   (claim_C7_grid gridApi gridPlace (by decide)).2.2.2.1⟩

-- -------------------------
-- CLAIM C2: retry / backoff
-- -------------------------

deriving instance DecidableEq for Except

/-- The successful response the 3rd transport attempt would deliver. -/
def c2Success : SearchResponse :=
  { results := [{ place_id := some "R" }], next_page_token := none,
    error_message := none }

/-- A transport environment whose first two attempts raise a timeout and
whose third (and later) attempts succeed. -/
def c2Http : Nat → Except TransportFailure SearchResponse := fun n =>
  if 2 ≤ n then Except.ok c2Success else Except.error TransportFailure.timeout

/-- C2 is FALSE on the code: against a transport whose first 2 attempts
fail and whose 3rd would succeed, `search_places` performs exactly ONE
attempt, sleeps never, and propagates the first failure — it neither
returns the 3rd attempt's successful result nor an empty result set. -/
theorem claim_C2_retry_counterexample :
    (search_places c2Http).1 = Except.error TransportFailure.timeout ∧
    (search_places c2Http).1 ≠ Except.ok c2Success ∧
    (search_places c2Http).1 ≠ Except.ok
      { results := [], next_page_token := none, error_message := none } ∧
    (search_places c2Http).2.1 = 1 ∧
    (search_places c2Http).2.2 = ([] : List Nat) := by
  refine ⟨rfl, ?_, ?_, rfl, rfl⟩ <;> decide

/-- C2 (amended): `search_places` issues exactly one HTTP attempt per
call, with no backoff sleeps; the single attempt's success is returned
as-is and its transient failure propagates as an exception (it is not
converted into an empty result set). -/
theorem claim_C2_single_attempt
    (http : Nat → Except TransportFailure SearchResponse) :
    (search_places http).2.1 = 1 ∧
    (search_places http).2.2 = ([] : List Nat) ∧
    (∀ r, http 0 = Except.ok r → (search_places http).1 = Except.ok r) ∧
    (∀ e, http 0 = Except.error e → (search_places http).1 = Except.error e) :=
  ⟨rfl, rfl, fun _ h => h, fun _ h => h⟩

/-- Witness for C2 (amended) at the concrete environment `c2Http`. -/
theorem claim_C2_single_attempt_witness :
    (search_places c2Http).2.1 = 1 ∧
    (search_places c2Http).1 = Except.error TransportFailure.timeout :=
  ⟨(claim_C2_single_attempt c2Http).1,
   (claim_C2_single_attempt c2Http).2.2.2 TransportFailure.timeout (by decide)⟩

-- -------------------------
-- CLAIM C3: detail-lookup failure
-- -------------------------

/-- A detail transport that always raises a timeout. -/
def c3Http : Option String → Except TransportFailure DetailsResponse :=
  fun _ => Except.error TransportFailure.timeout

/-- C3 is FALSE on the code for transport-level failures: when the detail
request for a fresh candidate raises, the exception propagates out of the
candidate step (there is no `try`/`except`) — no OutputRow is appended;
the row IS dropped and the place (indeed the run) fails. -/
theorem claim_C3_detail_failure_counterexample :
    processCandidateE true c3Http capPlaceA initState { place_id := some "X" } =
      Except.error TransportFailure.timeout := by
  decide

/-- C3 (amended): a detail lookup whose HTTP attempt succeeds but whose
response carries no `result` object degrades to the empty payload: the
row for the candidate is still appended (never dropped) with Name,
Address, Phone, Rating, Latitude, Longitude and Website all absent.  A
transport-level failure of the detail lookup, by contrast, raises and is
not caught (see the counterexample). -/
theorem claim_C3_empty_payload (dedup : Bool)
    (details_api : Option String → DetailsResponse) (place : Place)
    (st : RunState) (c : Candidate) (rest : List Candidate)
    (hfree : ¬(dedup = true ∧ c.place_id ∈ st.seen))
    (hres : (details_api c.place_id).result = none) :
    (mkRow place emptyDetail).Name = none ∧
    (mkRow place emptyDetail).Address = none ∧
    (mkRow place emptyDetail).Phone = none ∧
    (mkRow place emptyDetail).Rating = none ∧
    (mkRow place emptyDetail).Latitude = none ∧
    (mkRow place emptyDetail).Longitude = none ∧
    (mkRow place emptyDetail).Website = none ∧
    mkRow place emptyDetail ∈
      (processCandidates dedup details_api place st (c :: rest)).1.results := by
  refine ⟨rfl, rfl, rfl, rfl, rfl, rfl, rfl, ?_⟩
  rw [processCandidates, if_neg hfree]
  have hrow : mkRow place ((details_api c.place_id).result.getD emptyDetail) =
      mkRow place emptyDetail := by rw [hres]; rfl
  by_cases h2 : MAX_RESULTS_PER_CITY ≤
      (freshStep details_api place st c).1.results.length
  · rw [if_pos h2]
    rw [freshStep_results, hrow]
    exact List.mem_append_right _ (List.mem_singleton.mpr rfl)
  · rw [if_neg h2]
    obtain ⟨t, ht⟩ := processCandidates_results_mono dedup details_api place
      rest (freshStep details_api place st c).1
    dsimp only
    rw [ht, freshStep_results, hrow]
    exact List.mem_append_left _
      (List.mem_append_right _ (List.mem_singleton.mpr rfl))

/-- Witness for C3 (amended): a concrete fresh candidate whose detail
response lacks a `result` object still yields an appended all-null row. -/
theorem claim_C3_empty_payload_witness :
    (mkRow capPlaceA emptyDetail).Name = none ∧
    mkRow capPlaceA emptyDetail ∈
      (processCandidates true det0 capPlaceA initState
        [{ place_id := some "X" }]).1.results :=
  ⟨(claim_C3_empty_payload true det0 capPlaceA initState
      { place_id := some "X" } [] (by decide) rfl).1,
   (claim_C3_empty_payload true det0 capPlaceA initState
      { place_id := some "X" } [] (by decide) rfl).2.2.2.2.2.2.2⟩

-- -------------------------
-- CLAIM C4: deduplication toggle disabled
-- -------------------------

/-- C4 is FALSE on the code: with `ENABLE_DEDUPLICATION` disabled,
processing a single fresh candidate still mutates the seen set —
`seen_place_ids.add(place_id)` is executed unconditionally (line 162). -/
theorem claim_C4_dedup_disabled_counterexample :
    (processCandidates false det0 capPlaceA initState
        [{ place_id := some "A" }]).1.seen ≠ initState.seen ∧
    (processCandidates false det0 capPlaceA initState
        [{ place_id := some "A" }]).1.seen = {some "A"} := by
  constructor <;> decide

/-- C4 (amended): with the deduplication toggle disabled, every candidate
is treated as new — the dedup check filters nothing, the candidate is
forwarded to enrichment even when its identifier is already in the seen
set — BUT the identifier is still inserted into the seen set (which is
simply never consulted). -/
theorem claim_C4_dedup_disabled (details_api : Option String → DetailsResponse)
    (place : Place) (st : RunState) (c : Candidate) :
    lookupIds (processCandidates false details_api place st [c]).2 =
      [c.place_id] ∧
    (processCandidates false details_api place st [c]).1.seen =
      insert c.place_id st.seen ∧
    (processCandidates false details_api place st [c]).1.results =
      st.results ++
        [mkRow place ((details_api c.place_id).result.getD emptyDetail)] := by
  rw [processCandidates, if_neg (by simp)]
  by_cases h2 : MAX_RESULTS_PER_CITY ≤
      (freshStep details_api place st c).1.results.length
  · rw [if_pos h2]
    exact ⟨rfl, rfl, rfl⟩
  · rw [if_neg h2]
    rw [processCandidates]
    exact ⟨rfl, rfl, by simp⟩

-- -------------------------
-- CLAIM C1: result cap
-- -------------------------

set_option maxRecDepth 8000 in
/-- C1 is FALSE on the code: the cap check `len(results) >= MAX_RESULTS_PER_CITY`
compares the GLOBAL row count, but the `break` it guards only exits the
CURRENT place's candidate loop.  In a run over two places whose surviving
candidates number 61 in total (61 > MAX_RESULTS_PER_CITY = 60), 61 rows
are appended and 61 detail lookups are issued — the 61st lookup and append
happen after the 60th row was appended, in the second place's loop. -/
theorem claim_C1_global_cap_counterexample :
    MAX_RESULTS_PER_CITY = 60 ∧
    (processPlaces capApi det0 ENABLE_DEDUPLICATION initState
        [capPlaceA, capPlaceB]).1.results.length = 61 ∧
    (processPlaces capApi det0 ENABLE_DEDUPLICATION initState
        [capPlaceA, capPlaceB]).2.countP isLookup = 61 := by
  refine ⟨rfl, by decide, by decide⟩

/-- C1 (amended): the cap compares the global output row count but stops
only the current place's candidate loop.  For any state and candidate
list: (a) one place's candidate loop never grows the row list beyond
`max (entry count + 1) MAX_RESULTS_PER_CITY` — in particular, entering
below the cap it stops at exactly the cap, and entering at or above the
cap it appends at most one row; (b) the number of detail lookups issued
equals the number of rows appended (so no lookup is issued once appending
stopped); (c) a place whose loop is entered with the global count already
at the cap still processes its first unfiltered candidate: exactly one
more row is appended (so later places push the count past the cap). -/
theorem claim_C1_cap_per_place (dedup : Bool)
    (details_api : Option String → DetailsResponse) (place : Place)
    (cs : List Candidate) (st : RunState) :
    ((processCandidates dedup details_api place st cs).1.results.length ≤
      max (st.results.length + 1) MAX_RESULTS_PER_CITY) ∧
    ((processCandidates dedup details_api place st cs).1.results.length =
      st.results.length +
        (processCandidates dedup details_api place st cs).2.countP isLookup) ∧
    (∀ c rest, MAX_RESULTS_PER_CITY ≤ st.results.length →
      ¬(dedup = true ∧ c.place_id ∈ st.seen) →
      (processCandidates dedup details_api place st (c :: rest)).1.results.length =
        st.results.length + 1) := by
  refine ⟨processCandidates_cap dedup details_api place cs st,
    processCandidates_len dedup details_api place cs st, ?_⟩
  intro c rest hcap hfree
  rw [processCandidates, if_neg hfree, if_pos (by
    simp only [freshStep_results, List.length_append, List.length_cons,
      List.length_nil]
    omega)]
  simp

/-- Witness for C1 (amended): entering place "B"'s loop with the global
count already at the cap (60 rows from place "A"), the fresh candidate
"x" is still processed and exactly one more row is appended. -/
theorem claim_C1_cap_per_place_witness :
    ((processCandidates true det0 capPlaceB stCap
        [{ place_id := some "x" }]).1.results.length ≤
      max (stCap.results.length + 1) MAX_RESULTS_PER_CITY) ∧
    (processCandidates true det0 capPlaceB stCap
        [{ place_id := some "x" }]).1.results.length =
      stCap.results.length + 1 :=
  ⟨(claim_C1_cap_per_place true det0 capPlaceB
      [{ place_id := some "x" }] stCap).1,
   (claim_C1_cap_per_place true det0 capPlaceB
      [{ place_id := some "x" }] stCap).2.2 { place_id := some "x" } []
     (by decide) (by decide)⟩

-- -------------------------
-- CLAIM C8: deduplication order
-- -------------------------

/-- The candidate sequence [A, B, A, C, B], served as one place's search
results. -/
def dupApi : Place → Nat → SearchResponse := fun _ _ =>
  { results := [{ place_id := some "A" }, { place_id := some "B" },
                { place_id := some "A" }, { place_id := some "C" },
                { place_id := some "B" }],
    next_page_token := none, error_message := none }

/-- The same candidates split across two places: [A, B] then [A, C, B]. -/
def dupApi2 : Place → Nat → SearchResponse := fun p _ =>
  if p.city = "A" then
    { results := [{ place_id := some "A" }, { place_id := some "B" }],
      next_page_token := none, error_message := none }
  else
    { results := [{ place_id := some "A" }, { place_id := some "C" },
                  { place_id := some "B" }],
      next_page_token := none, error_message := none }

/-- C8: with deduplication enabled and an initially empty seen set, the
candidate sequence [A, B, A, C, B] forwards exactly the identifiers
A, B, C to enrichment, in first-seen order, appending exactly 3 rows; the
duplicates are dropped with no error and no log line; and the filter is
global across places: splitting the same sequence as [A, B] in one place
and [A, C, B] in a second place forwards the same A, B, C. -/
theorem claim_C8_dedup_order :
    lookupIds (processPlaces dupApi det0 ENABLE_DEDUPLICATION initState
      [capPlaceA]).2 = [some "A", some "B", some "C"] ∧
    (processPlaces dupApi det0 ENABLE_DEDUPLICATION initState
      [capPlaceA]).1.results.length = 3 ∧
    (processPlaces dupApi det0 ENABLE_DEDUPLICATION initState
      [capPlaceA]).2.countP isSkip = 0 ∧
    lookupIds (processPlaces dupApi2 det0 ENABLE_DEDUPLICATION initState
      [capPlaceA, capPlaceB]).2 = [some "A", some "B", some "C"] ∧
    (processPlaces dupApi2 det0 ENABLE_DEDUPLICATION initState
      [capPlaceA, capPlaceB]).2.countP isSkip = 0 := by
  refine ⟨by decide, by decide, by decide, by decide, by decide⟩

-- -------------------------
-- CLAIM C9: seen-set invariants
-- -------------------------

/-- C9: across a whole run, the seen set only grows (never shrinks); the
trace is a sequence of blocks in which the insertion of an identifier
immediately precedes the detail lookup for that same identifier, which
immediately precedes the append of its row (so the addition always happens
before the corresponding detail lookup); and with deduplication enabled an
identifier not already seen is inserted at most once and looked up at most
once across the entire run — hence at most one emitted row per
identifier. -/
theorem claim_C9_seen_invariants (api : Place → Nat → SearchResponse)
    (details_api : Option String → DetailsResponse) (dedup : Bool)
    (st : RunState) (places : List Place) :
    st.seen ⊆ (processPlaces api details_api dedup st places).1.seen ∧
    GoodTrace (processPlaces api details_api dedup st places).2 ∧
    (dedup = true → ∀ pid : Option String, pid ∉ st.seen →
      (processPlaces api details_api dedup st places).2.count
          (Event.detailLookup pid) ≤ 1 ∧
      (processPlaces api details_api dedup st places).2.count
          (Event.insertSeen pid) ≤ 1) := by
  refine ⟨processPlaces_seen_mono api details_api dedup places st,
    processPlaces_good api details_api dedup places st, ?_⟩
  rintro rfl pid hpid
  have h := processPlaces_count_le api details_api pid places st
  rw [if_neg hpid] at h
  constructor
  · have := h.1
    split_ifs at this <;> omega
  · have := h.2
    split_ifs at this <;> omega

/-- Witness for C9 at a concrete two-place run with overlapping
candidates. -/
theorem claim_C9_seen_invariants_witness :
    initState.seen ⊆ (processPlaces dupApi2 det0 true initState
      [capPlaceA, capPlaceB]).1.seen ∧
    GoodTrace (processPlaces dupApi2 det0 true initState
      [capPlaceA, capPlaceB]).2 ∧
    (processPlaces dupApi2 det0 true initState
      [capPlaceA, capPlaceB]).2.count
        (Event.detailLookup (some "A")) ≤ 1 :=
  ⟨(claim_C9_seen_invariants dupApi2 det0 true initState
      [capPlaceA, capPlaceB]).1,
   (claim_C9_seen_invariants dupApi2 det0 true initState
      [capPlaceA, capPlaceB]).2.1,
   ((claim_C9_seen_invariants dupApi2 det0 true initState
      [capPlaceA, capPlaceB]).2.2 rfl (some "A") (by decide)).1⟩

-- -------------------------
-- CLAIM C10: candidates without a place_id
-- -------------------------

/-- A run in which the first place yields an identifier-less candidate
followed by a normal one, and the second place yields another
identifier-less candidate. -/
def noneApi : Place → Nat → SearchResponse := fun p _ =>
  if p.city = "A" then
    { results := [{ place_id := none }, { place_id := some "k" }],
      next_page_token := none, error_message := none }
  else
    { results := [{ place_id := none }],
      next_page_token := none, error_message := none }

/-- C10: a candidate whose payload lacks a `place_id` key is processed
under the identifier `None`.  With deduplication enabled (the
configuration value) and `None` not initially seen, at most one detail
lookup with identifier `None` is issued in the entire run — every later
identifier-less candidate from any place is filtered out — and the trace
block structure (`GoodTrace`) shows that the one `None` lookup, when it
occurs, is immediately preceded by inserting `None` into the seen set and
immediately followed by appending its row. -/
theorem claim_C10_missing_place_id (api : Place → Nat → SearchResponse)
    (details_api : Option String → DetailsResponse) (st : RunState)
    (places : List Place) (h : (none : Option String) ∉ st.seen) :
    (processPlaces api details_api ENABLE_DEDUPLICATION st places).2.count
        (Event.detailLookup none) ≤ 1 ∧
    GoodTrace (processPlaces api details_api ENABLE_DEDUPLICATION st places).2 := by
  simp only [ENABLE_DEDUPLICATION]
  constructor
  · have hc := (processPlaces_count_le api details_api none places st).1
    rw [if_neg h] at hc
    split_ifs at hc <;> omega
  · exact processPlaces_good api details_api true places st

/-- Witness for C10: a run with identifier-less candidates in two
different places issues exactly one `None` detail lookup. -/
theorem claim_C10_missing_place_id_witness :
    (processPlaces noneApi det0 ENABLE_DEDUPLICATION initState
        [capPlaceA, capPlaceB]).2.count (Event.detailLookup none) ≤ 1 ∧
    (processPlaces noneApi det0 ENABLE_DEDUPLICATION initState
        [capPlaceA, capPlaceB]).2.count (Event.detailLookup none) = 1 ∧
    GoodTrace (processPlaces noneApi det0 ENABLE_DEDUPLICATION initState
        [capPlaceA, capPlaceB]).2 :=
  ⟨(claim_C10_missing_place_id noneApi det0 initState
      [capPlaceA, capPlaceB] (by decide)).1,
   by decide,
   (claim_C10_missing_place_id noneApi det0 initState
      [capPlaceA, capPlaceB] (by decide)).2⟩
